import Mathlib

/-!
Verification of the MicroShop storefront (React/Vite client of the
ecommerce-lambda-aws repository).

The development shallowly embeds the client-side logic of the three source
files:
  * web/src/pages/Payment.tsx  (Payment page, Cart page, Payments page)
  * the OrderDetails page
  * the routing table
JavaScript strings become Lean strings (with the character list exposed as
List Char), JavaScript numbers become an explicit JsNum type with NaN and
the infinities, browser side effects (toasts, localStorage writes, route
navigation, REST requests) become an explicit Effect trace, and each async
handler becomes a pure function from its inputs (component state plus the
outcome of its network call) to a result state and an effect trace.
-/

namespace MicroShop

/-! ### JavaScript string primitives used by Payment.tsx -/

/-- The whitespace characters removed by the JavaScript String.prototype.trim
(space, tab, line feed, carriage return, vertical tab, form feed,
no-break space, BOM). -/
def jsIsSpace (c : Char) : Bool :=
  c == ' ' || c == '\t' || c == '\n' || c == '\r' || c == '\x0b' ||
  c == '\x0c' || c == ' ' || c == '﻿'

/-- JavaScript String.prototype.trim on a character list: drop whitespace
from both ends. -/
def trimL (l : List Char) : List Char :=
  ((l.dropWhile jsIsSpace).reverse.dropWhile jsIsSpace).reverse

/-- JavaScript String.prototype.trim. -/
def jsTrim (s : String) : String :=
  ⟨trimL s.data⟩

/-- The test performed by trimmed.startsWith applied to a plus sign. -/
def startsWithPlusL : List Char → Bool
  | [] => false
  | c :: _ => c == '+'

/-- replace of the regular expression class D (all non-digits) by the empty
string: keep exactly the decimal digits. -/
def stripNonDigits (l : List Char) : List Char :=
  l.filter Char.isDigit

/-- Payment.tsx normalizePhone on a character list: trim, then keep digits,
with a leading plus sign put back when the trimmed input starts with one
(the plus branch keeps the head and strips non-digits from slice(1)). -/
def normalizePhoneL (l : List Char) : List Char :=
  let trimmed := trimL l
  if startsWithPlusL trimmed then
    '+' :: stripNonDigits (trimmed.drop 1)
  else
    stripNonDigits trimmed

/-- Payment.tsx normalizePhone. -/
def normalizePhone (s : String) : String :=
  ⟨normalizePhoneL s.data⟩

/-- The digit part examined by isValidPhone: slice(1) of the normalized
string when it starts with a plus sign, the whole string otherwise. -/
def digitsPartL (p : List Char) : List Char :=
  if startsWithPlusL p then p.drop 1 else p

/-- Payment.tsx isValidPhone: normalize, strip an optional leading plus
sign, and accept when between 9 and 15 characters remain. -/
def isValidPhone (s : String) : Bool :=
  decide (9 ≤ (digitsPartL (normalizePhoneL s.data)).length) &&
  decide ((digitsPartL (normalizePhoneL s.data)).length ≤ 15)

/-- The number of decimal digits occurring in a string. -/
def countDigits (s : String) : Nat :=
  (s.data.filter Char.isDigit).length

/-! ### Lemmas about trimming and digit filtering -/

theorem jsIsSpace_isDigit_false {c : Char} (h : jsIsSpace c = true) :
    c.isDigit = false := by
  simp only [jsIsSpace, Bool.or_eq_true, beq_iff_eq] at h
  rcases h with ((((((rfl | rfl) | rfl) | rfl) | rfl) | rfl) | rfl) | rfl <;> decide

theorem dropWhile_eq_self_of_forall {p : Char → Bool} {l : List Char}
    (h : ∀ c ∈ l, p c = false) : l.dropWhile p = l := by
  cases l with
  | nil => rfl
  | cons c t =>
      have hc : p c = false := h c (List.mem_cons_self c t)
      simp [List.dropWhile_cons, hc]

theorem trimL_eq_self_of_forall {l : List Char}
    (h : ∀ c ∈ l, jsIsSpace c = false) : trimL l = l := by
  unfold trimL
  rw [dropWhile_eq_self_of_forall h]
  rw [dropWhile_eq_self_of_forall (by intro c hc; exact h c (List.mem_reverse.mp hc))]
  exact List.reverse_reverse l

theorem filter_dropWhile_isDigit (l : List Char) :
    (l.dropWhile jsIsSpace).filter Char.isDigit = l.filter Char.isDigit := by
  induction l with
  | nil => rfl
  | cons c t ih =>
      by_cases hc : jsIsSpace c = true
      · rw [List.dropWhile_cons_of_pos hc, ih, List.filter_cons,
          jsIsSpace_isDigit_false hc]
        simp
      · rw [List.dropWhile_cons_of_neg (by simpa using hc)]

theorem filter_trimL_isDigit (l : List Char) :
    (trimL l).filter Char.isDigit = l.filter Char.isDigit := by
  unfold trimL
  rw [List.filter_reverse, filter_dropWhile_isDigit, List.filter_reverse,
    List.reverse_reverse, filter_dropWhile_isDigit]

theorem mem_stripNonDigits {c : Char} {l : List Char}
    (h : c ∈ stripNonDigits l) : c.isDigit = true :=
  (List.mem_filter.mp h).2

theorem isDigit_not_space {c : Char} (h : c.isDigit = true) :
    jsIsSpace c = false := by
  cases hs : jsIsSpace c with
  | false => rfl
  | true =>
      rw [jsIsSpace_isDigit_false hs] at h
      exact Bool.noConfusion h

theorem isDigit_ne_plus {c : Char} (h : c.isDigit = true) : c ≠ '+' := by
  intro rfl_h
  subst rfl_h
  exact absurd h (by decide)

/-- Closed form of normalizePhoneL: an optional plus sign (present exactly
when the trimmed input starts with one) followed by the digits of the
input in order. -/
theorem normalizePhoneL_eq (l : List Char) :
    normalizePhoneL l =
      (if startsWithPlusL (trimL l) then ['+'] else []) ++ l.filter Char.isDigit := by
  unfold normalizePhoneL
  by_cases h : startsWithPlusL (trimL l) = true
  · rw [if_pos h, if_pos h]
    cases ht : trimL l with
    | nil => rw [ht] at h; exact absurd h (by decide)
    | cons c t =>
        rw [ht] at h
        have hc : c = '+' := by simpa [startsWithPlusL] using h
        subst hc
        have : l.filter Char.isDigit = t.filter Char.isDigit := by
          rw [← filter_trimL_isDigit l, ht, List.filter_cons, if_neg (by decide)]
        rw [this]
        simp [stripNonDigits]
  · rw [if_neg h, if_neg h]
    simp only [stripNonDigits, List.nil_append]
    exact filter_trimL_isDigit l

theorem mem_normalizePhoneL {c : Char} {l : List Char}
    (h : c ∈ normalizePhoneL l) : c = '+' ∨ c.isDigit = true := by
  rw [normalizePhoneL_eq] at h
  rcases List.mem_append.mp h with h1 | h2
  · left
    by_cases hp : startsWithPlusL (trimL l) = true
    · rw [if_pos hp] at h1; simpa using h1
    · rw [if_neg hp] at h1; simp at h1
  · right
    exact (List.mem_filter.mp h2).2

theorem trimL_normalizePhoneL (l : List Char) :
    trimL (normalizePhoneL l) = normalizePhoneL l := by
  apply trimL_eq_self_of_forall
  intro c hc
  rcases mem_normalizePhoneL hc with rfl | hd
  · decide
  · exact isDigit_not_space hd

theorem filter_isDigit_normalizePhoneL (l : List Char) :
    (normalizePhoneL l).filter Char.isDigit = l.filter Char.isDigit := by
  rw [normalizePhoneL_eq, List.filter_append]
  by_cases hp : startsWithPlusL (trimL l) = true
  · rw [if_pos hp]
    simp [List.filter_filter]
  · rw [if_neg hp]
    simp [List.filter_filter]

theorem normalizePhoneL_idem (l : List Char) :
    normalizePhoneL (normalizePhoneL l) = normalizePhoneL l := by
  rw [normalizePhoneL_eq (normalizePhoneL l), trimL_normalizePhoneL,
    filter_isDigit_normalizePhoneL]
  rw [normalizePhoneL_eq l]
  by_cases hp : startsWithPlusL (trimL l) = true
  · rw [if_pos hp]
    simp only [List.singleton_append]
    rw [if_pos (show startsWithPlusL ('+' :: l.filter Char.isDigit) = true by
      simp [startsWithPlusL])]
    simp
  · rw [if_neg hp, List.nil_append]
    have : startsWithPlusL (l.filter Char.isDigit) = false := by
      cases hf : l.filter Char.isDigit with
      | nil => rfl
      | cons c t =>
          have hc : c.isDigit = true := by
            have : c ∈ l.filter Char.isDigit := by rw [hf]; exact List.mem_cons_self c t
            exact (List.mem_filter.mp this).2
          simp [startsWithPlusL, isDigit_ne_plus hc]
    rw [this]
    simp

theorem digitsPartL_normalizePhoneL_length (l : List Char) :
    (digitsPartL (normalizePhoneL l)).length = (l.filter Char.isDigit).length := by
  rw [normalizePhoneL_eq]
  by_cases hp : startsWithPlusL (trimL l) = true
  · rw [if_pos hp]
    simp [digitsPartL, startsWithPlusL]
  · rw [if_neg hp, List.nil_append]
    unfold digitsPartL
    cases hf : l.filter Char.isDigit with
    | nil => rfl
    | cons c t =>
        have hc : c.isDigit = true := by
          have : c ∈ l.filter Char.isDigit := by rw [hf]; exact List.mem_cons_self c t
          exact (List.mem_filter.mp this).2
        rw [if_neg (by simp [startsWithPlusL, isDigit_ne_plus hc])]

/-! ### JavaScript numbers -/

/-- JavaScript double values as used by the cart logic: NaN, the two
infinities, and finite values modelled as rationals. -/
inductive JsNum where
  | nan
  | posInf
  | negInf
  | num (q : ℚ)
deriving DecidableEq

/-- Truthiness of a JavaScript number: NaN and zero are falsy. -/
def jsTruthy : JsNum → Bool
  | .nan => false
  | .posInf => true
  | .negInf => true
  | .num q => decide (q ≠ 0)

/-- The value-returning JavaScript logical or on numbers: the left operand
when truthy, the right one otherwise. -/
def jsOrNum (x y : JsNum) : JsNum :=
  if jsTruthy x then x else y

/-- JavaScript Math.floor. -/
def jsFloor : JsNum → JsNum
  | .nan => .nan
  | .posInf => .posInf
  | .negInf => .negInf
  | .num q => .num ⌊q⌋

/-- JavaScript Math.max on two arguments: NaN-propagating maximum. -/
def jsMax : JsNum → JsNum → JsNum
  | .nan, _ => .nan
  | _, .nan => .nan
  | .posInf, _ => .posInf
  | _, .posInf => .posInf
  | .negInf, b => b
  | a, .negInf => a
  | .num a, .num b => .num (max a b)

/-- JavaScript strict equality on numbers: NaN compares unequal to
everything, including itself. -/
def jsEqNum : JsNum → JsNum → Bool
  | .nan, _ => false
  | _, .nan => false
  | .posInf, .posInf => true
  | .negInf, .negInf => true
  | .num a, .num b => a == b
  | _, _ => false

/-- JavaScript Number.isFinite. -/
def isFinite : JsNum → Bool
  | .num _ => true
  | _ => false

/-- The JavaScript strict greater-than on numbers: false whenever NaN is
involved. -/
def jsGt : JsNum → JsNum → Bool
  | .nan, _ => false
  | _, .nan => false
  | .posInf, .posInf => false
  | .posInf, _ => true
  | _, .posInf => false
  | .negInf, _ => false
  | _, .negInf => true
  | .num a, .num b => decide (b < a)

/-- The JavaScript greater-or-equal on numbers: false whenever NaN is
involved. -/
def jsGe : JsNum → JsNum → Bool
  | .nan, _ => false
  | _, .nan => false
  | .posInf, _ => true
  | .negInf, .negInf => true
  | .negInf, _ => false
  | _, .posInf => false
  | _, .negInf => true
  | .num a, .num b => decide (b ≤ a)

/-! ### The cart data model of Cart.tsx -/

/-- A cart line as stored by the Cart page: product id and quantity, both
JavaScript numbers. -/
structure CartItem where
  product_id : JsNum
  qty : JsNum
deriving DecidableEq

/-- Cart.tsx setQty: clamp the requested quantity with
Math.max of 1 and Math.floor of the requested value (with the falsy
values NaN and 0 replaced by 1 first), then store the clamp on every line
whose product id strictly equals the given one. -/
def setQty (items : List CartItem) (product_id : JsNum) (qty : JsNum) :
    List CartItem :=
  let q := jsMax (.num 1) (jsFloor (jsOrNum qty (.num 1)))
  items.map fun x => if jsEqNum x.product_id product_id then { x with qty := q } else x

/-- Modelled from the spec: the quantity the clamp is claimed to store,
namely the floor of the requested value clamped to at least 1, with 1 for
a non-numeric (NaN) request. -/
def specClampQty : JsNum → JsNum
  | .nan => .num 1
  | .posInf => .posInf
  | .negInf => .num 1
  | .num v => .num (max 1 ⌊v⌋)

/-! ### JSON values and readCart -/

/-- JSON values as produced by JSON.parse (JSON numbers are finite). -/
inductive Json where
  | null
  | bool (b : Bool)
  | num (q : ℚ)
  | str (s : String)
  | arr (elems : List Json)
  | obj (fields : List (String × Json))

/-- Whether a parsed JSON value is an array (the Array.isArray guard). -/
def Json.isArr : Json → Bool
  | .arr _ => true
  | _ => false

/-- Optional-chaining property access on a parsed JSON value: a field
lookup on objects, undefined (none) on everything else. -/
def jsGetField (j : Json) (key : String) : Option Json :=
  match j with
  | .obj fields => (fields.find? (fun f => f.1 == key)).map (fun f => f.2)
  | _ => none

/-- Value of a digit string. -/
def digitsVal (l : List Char) : ℕ :=
  l.foldl (fun a c => 10 * a + (c.toNat - '0'.toNat)) 0

/-- Parse of an unsigned decimal literal: digits with an optional single
dot and fractional digits, at least one digit overall. Exponent and hex
forms of the JavaScript numeric grammar are not modelled. -/
def parseUnsignedDec (l : List Char) : Option ℚ :=
  let intPart := l.takeWhile Char.isDigit
  let rest := l.dropWhile Char.isDigit
  match rest with
  | [] => if intPart.isEmpty then none else some ((digitsVal intPart : ℚ))
  | c :: frac =>
      if c == '.' && frac.all Char.isDigit && !(intPart.isEmpty && frac.isEmpty) then
        some ((digitsVal intPart : ℚ) + (digitsVal frac : ℚ) / ((10 : ℚ) ^ frac.length))
      else none

/-- Parse of a decimal literal with an optional sign. -/
def parseSignedDec : List Char → Option ℚ
  | [] => none
  | c :: r =>
      if c == '-' then (parseUnsignedDec r).map (fun q => -q)
      else if c == '+' then parseUnsignedDec r
      else parseUnsignedDec (c :: r)

/-- JavaScript Number on a string: trim, the empty remainder gives 0, the
Infinity spellings give the infinities, a decimal literal parses, and
everything else is NaN. -/
def jsStrToNum (s : String) : JsNum :=
  let t := trimL s.data
  if t.isEmpty then .num 0
  else if t == "Infinity".data || t == "+Infinity".data then .posInf
  else if t == "-Infinity".data then .negInf
  else
    match parseSignedDec t with
    | some q => .num q
    | none => .nan

/-- JavaScript Number coercion of a possibly undefined parsed JSON value:
undefined and objects give NaN, null gives 0, booleans 0 or 1, strings go
through the numeric parse; the array-to-primitive coercion is modelled
for the common cases (empty array 0, singleton numeric array its value,
other arrays NaN). -/
def jsToNumber : Option Json → JsNum
  | none => .nan
  | some .null => .num 0
  | some (.bool b) => .num (if b then 1 else 0)
  | some (.num q) => .num q
  | some (.str s) => jsStrToNum s
  | some (.arr []) => .num 0
  | some (.arr [.num q]) => .num q
  | some (.arr _) => .nan
  | some (.obj _) => .nan

/-- The possible states of the cart entry in localStorage as seen by
readCart: absent (getItem returns null; an empty string behaves the same
through the falsiness guard), present but not valid JSON (JSON.parse
throws and the catch returns the empty list), or present and parsed. -/
inductive StoredCart where
  | absent
  | unparsable
  | parsed (j : Json)

/-- Cart.tsx readCart: an absent or unparsable entry and a non-array parse
give the empty cart; an array is mapped to the Number coercions of the
product_id and qty fields of each element, then filtered to finite ids
and finite strictly positive quantities. -/
def readCart (s : StoredCart) : List CartItem :=
  match s with
  | .absent => []
  | .unparsable => []
  | .parsed j =>
      match j with
      | .arr xs =>
          (xs.map (fun x =>
            CartItem.mk (jsToNumber (jsGetField x "product_id"))
              (jsToNumber (jsGetField x "qty")))).filter
            (fun x => isFinite x.product_id && isFinite x.qty && jsGt x.qty (.num 0))
      | _ => []

/-! ### Orders, products and REST error responses -/

/-- An order line as rendered by the order pages. -/
structure OrderItem where
  product_id : JsNum
  qty : JsNum
  unit_price : JsNum
deriving DecidableEq

/-- An order as fetched from the orders endpoint. -/
structure Order where
  id : JsNum
  status : String
  total : JsNum
  items : List OrderItem
deriving DecidableEq

/-- A product as fetched from the products endpoint. -/
structure Product where
  id : JsNum
  name : String
  description : Option String
  price : JsNum
  image_url : Option String
  published : Option Bool

/-- The payload posted to the payments endpoint. -/
structure PayPayload where
  shipping_address : String
  phone_number : String
deriving DecidableEq

/-- The parts of an axios error the catch handlers look at: the optional
response status and the optional detail field of the response body. -/
structure ErrResp where
  status : Option ℕ
  detail : Option String
deriving DecidableEq

/-- The JavaScript string-or applied to the optional detail field: a
missing or empty detail falls back to the given message. -/
def jsOrStr (detail : Option String) (fallback : String) : String :=
  match detail with
  | none => fallback
  | some d => if d == "" then fallback else d

/-- The 401-or-403 test shared by the auth-aware catch handlers. -/
def isAuthStatus (status : Option ℕ) : Bool :=
  status == some 401 || status == some 403

/-! ### Browser side effects of the page handlers -/

/-- The browser side effects performed by the page handlers, listed in
program order: toasts, the localStorage token read and removals, route
navigation, component state updates and REST requests. -/
inductive Effect where
  | toastError (msg : String)
  | toastSuccess (msg : String)
  | readToken
  | removeToken
  | removeCart
  | navigate (route : String)
  | setOrderNone
  | setItems (items : List CartItem)
  | postOrders (items : List CartItem)
  | postPayment (orderId : String) (payload : PayPayload)
  | refreshOrder (orderId : String)
deriving DecidableEq

/-- Payment.tsx and Payments.tsx handleAuthError: toast, drop the stored
token, go to the login page. -/
def handleAuthError : List Effect :=
  [.toastError "Session expired. Please login again.", .removeToken, .navigate "/login"]

/-- The catch branch of Payment.tsx loadOrder: the auth branch on 401 or
403, otherwise the detail toast and a cleared order. -/
def loadOrderCatch (e : ErrResp) : List Effect :=
  if isAuthStatus e.status then handleAuthError
  else [.toastError (jsOrStr e.detail "Failed to load order"), .setOrderNone]

/-- The catch branch of Payment.tsx handlePay. -/
def handlePayCatch (e : ErrResp) : List Effect :=
  if isAuthStatus e.status then handleAuthError
  else [.toastError (jsOrStr e.detail "Payment failed")]

/-- The catch branch of Payments.tsx load. -/
def paymentsLoadCatch (e : ErrResp) : List Effect :=
  if isAuthStatus e.status then handleAuthError
  else [.toastError (jsOrStr e.detail "Failed to load payments")]

/-- The catch branch of the OrderDetails load: no auth branch, only the
detail toast and a cleared order. -/
def orderDetailsLoadCatch (e : ErrResp) : List Effect :=
  [.toastError (jsOrStr e.detail "Failed to load order"), .setOrderNone]

/-- The catch branch of the Cart page product fetch: no auth branch. -/
def cartProductsCatch (e : ErrResp) : List Effect :=
  [.toastError (jsOrStr e.detail "Failed to load products")]

/-- The catch branch of Cart.tsx checkout: no auth branch. -/
def checkoutCatch (e : ErrResp) : List Effect :=
  [.toastError (jsOrStr e.detail "Checkout failed")]

/-! ### Rendered views of the payment and order-details pages -/

/-- The shapes the Payment page can render. -/
inductive PaymentView where
  | loadingView
  | missingOrderId
  | orderNotFound
  | orderCard (id : JsNum) (status : String) (payNow : Bool)
deriving DecidableEq

/-- Payment.tsx isPayable: the optional-chained status of the loaded
order strictly equals CREATED. -/
def isPayable (order : Option Order) : Bool :=
  match order with
  | some o => o.status == "CREATED"
  | none => false

/-- The render branch of the Payment page: loading guard, missing order
id guard, missing order guard, then the order card whose Pay Now button
is present exactly when isPayable holds (otherwise the
not-in-CREATED-status banner shows). -/
def renderPayment (loading : Bool) (orderId : Option String)
    (order : Option Order) : PaymentView :=
  if loading then .loadingView
  else
    match orderId with
    | none => .missingOrderId
    | some _ =>
        match order with
        | none => .orderNotFound
        | some o => .orderCard o.id o.status (isPayable (some o))

/-- The shapes the OrderDetails page can render. -/
inductive OrderDetailsView where
  | loadingView
  | notFound
  | orderCard (id : JsNum) (status : String) (goToPayment : Bool)
deriving DecidableEq

/-- The render branch of the OrderDetails page: loading guard, missing
order guard, then the order card whose Go to Payment link is rendered
exactly when the status strictly equals CREATED. -/
def renderOrderDetails (loading : Bool) (order : Option Order) :
    OrderDetailsView :=
  if loading then .loadingView
  else
    match order with
    | none => .notFound
    | some o => .orderCard o.id o.status (o.status == "CREATED")

/-! ### The checkout and handlePay control flow -/

/-- The Cart page state touched by checkout: the in-memory items, the
cart entry of localStorage, the stored token, and the product map built
from the catalog fetch. -/
structure CartPage where
  items : List CartItem
  cartStorage : Option (List CartItem)
  token : Option String
  productsById : JsNum → Option Product

/-- JavaScript number-to-string as used in the order-created toast and
the navigation target. Integer values print exactly; other values are
approximated by the rational representation. -/
def jsNumToString : JsNum → String
  | .nan => "NaN"
  | .posInf => "Infinity"
  | .negInf => "-Infinity"
  | .num q => if q.den = 1 then toString q.num else toString q

/-- Cart.tsx checkout as a state transformer: given the page state and
the outcome of the POST to the orders endpoint, the next state and the
effect trace in program order. The empty-cart guard fires before the
token is read; the unavailable-items guard fires before the POST; on
success the cart entry is removed and the items cleared; on failure the
catch toast fires and the state is unchanged. -/
def checkout (pg : CartPage) (net : Except ErrResp JsNum) :
    CartPage × List Effect :=
  if pg.items.isEmpty then (pg, [.toastError "Cart is empty"])
  else
    match pg.token with
    | none => (pg, [.readToken, .toastError "Please login first", .navigate "/login"])
    | some _ =>
        if !(pg.items.filter (fun x => (pg.productsById x.product_id).isNone)).isEmpty then
          (pg, [.readToken,
            .toastError "Some items are unavailable (refresh products and try again)"])
        else
          match net with
          | .ok id =>
              ({ pg with cartStorage := none, items := [] },
               [.readToken,
                .postOrders (pg.items.map fun i => ⟨i.product_id, i.qty⟩),
                .removeCart, .setItems [],
                .toastSuccess ("Order created #" ++ jsNumToString id),
                .navigate ("/orders/" ++ jsNumToString id)])
          | .error e =>
              (pg, [.readToken,
                .postOrders (pg.items.map fun i => ⟨i.product_id, i.qty⟩)]
                ++ checkoutCatch e)

/-- Payment.tsx validateForm: the verdict together with the toasts raised
by the failing guard (empty trimmed address, empty trimmed phone, invalid
phone). -/
def validateForm (address phone : String) : Bool × List Effect :=
  if jsTrim address == "" then
    (false, [.toastError "Please enter your shipping address"])
  else if jsTrim phone == "" then
    (false, [.toastError "Please enter your phone number"])
  else if !isValidPhone phone then
    (false, [.toastError "Phone number is invalid (use 9–15 digits)"])
  else (true, [])

/-- Payment.tsx handlePay as an effect trace: the missing-orderId guard
returns silently, a missing token toasts and redirects, a failing form
validation toasts and returns, and otherwise the POST to the payments
endpoint carries the trimmed address and the normalized phone, followed
by the success toast, order refresh and navigation, or by the catch
branch. -/
def handlePay (orderId token : Option String) (address phone : String)
    (net : Except ErrResp Unit) : List Effect :=
  match orderId with
  | none => []
  | some oid =>
      match token with
      | none => [.readToken, .toastError "Please login first", .navigate "/login"]
      | some _ =>
          if (validateForm address phone).1 = false then
            .readToken :: (validateForm address phone).2
          else
            [.readToken,
             .postPayment oid ⟨jsTrim address, normalizePhone phone⟩] ++
            (match net with
             | .ok _ => [.toastSuccess "Payment successful 🎉", .refreshOrder oid,
                         .navigate "/payments"]
             | .error e => handlePayCatch e)

/-! ### Claims about phone normalization and validation -/

/-- C1: normalizePhone removes every non-digit character and keeps a
leading plus sign exactly when the trimmed input starts with one; in
particular it maps 090-123-4567 to 0901234567 and +84 90 123 4567
to +84901234567. -/
theorem c1_normalizePhone_strips_non_digits :
    (∀ l : List Char,
      normalizePhoneL l =
        (if startsWithPlusL (trimL l) then ['+'] else []) ++ l.filter Char.isDigit) ∧
    normalizePhone "090-123-4567" = "0901234567" ∧
    normalizePhone "+84 90 123 4567" = "+84901234567" :=
  ⟨normalizePhoneL_eq, by decide, by decide⟩

/-- C2: isValidPhone returns true exactly when the number of digits of the
normalized form, a leading plus sign excluded, lies between 9 and 15; in
particular the five-digit input 12345 is rejected. -/
theorem c2_isValidPhone_digit_count :
    (∀ s : String,
      isValidPhone s = true ↔
        9 ≤ countDigits (normalizePhone s) ∧ countDigits (normalizePhone s) ≤ 15) ∧
    isValidPhone "12345" = false := by
  refine ⟨fun s => ?_, by decide⟩
  have hc : countDigits (normalizePhone s) = (s.data.filter Char.isDigit).length := by
    show ((normalizePhoneL s.data).filter Char.isDigit).length = _
    rw [filter_isDigit_normalizePhoneL]
  unfold isValidPhone
  rw [Bool.and_eq_true, decide_eq_true_eq, decide_eq_true_eq,
    digitsPartL_normalizePhoneL_length, hc]

/-- C2 witness: the theorem applied at the concrete input 0901234567,
whose normalized form has ten digits. -/
theorem c2_isValidPhone_digit_count_witness :
    isValidPhone "0901234567" = true :=
  (c2_isValidPhone_digit_count.1 "0901234567").mpr (by decide)

/-- C10: normalizePhone is idempotent and isValidPhone is invariant under
normalization. -/
theorem c10_normalizePhone_idempotent :
    ∀ s : String,
      normalizePhone (normalizePhone s) = normalizePhone s ∧
      isValidPhone (normalizePhone s) = isValidPhone s := by
  intro s
  constructor
  · exact congrArg String.mk (normalizePhoneL_idem s.data)
  · show (decide (9 ≤ (digitsPartL (normalizePhoneL (normalizePhoneL s.data))).length) &&
      decide ((digitsPartL (normalizePhoneL (normalizePhoneL s.data))).length ≤ 15)) =
      (decide (9 ≤ (digitsPartL (normalizePhoneL s.data)).length) &&
      decide ((digitsPartL (normalizePhoneL s.data)).length ≤ 15))
    rw [normalizePhoneL_idem]

/-! ### Claims about the cart -/

theorem clamp_eq_specClampQty (qty : JsNum) :
    jsMax (.num 1) (jsFloor (jsOrNum qty (.num 1))) = specClampQty qty := by
  cases qty with
  | nan => rfl
  | posInf => rfl
  | negInf => rfl
  | num v =>
      by_cases hv : v = 0
      · subst hv
        simp [jsOrNum, jsTruthy, jsFloor, jsMax, specClampQty]
      · simp [jsOrNum, jsTruthy, jsFloor, jsMax, specClampQty, hv]

theorem specClampQty_ge_one (qty : JsNum) :
    jsGe (specClampQty qty) (.num 1) = true := by
  cases qty with
  | nan => rfl
  | posInf => rfl
  | negInf => rfl
  | num v => simp [specClampQty, jsGe, le_max_left]

/-- C6: setQty stores the floor of the requested value clamped to at
least 1 (1 for the falsy requests 0 and NaN and for negative values), so
every cart quantity stays at least 1 after any setQty. -/
theorem c6_setQty_clamps :
    ∀ (items : List CartItem) (pid qty : JsNum),
      setQty items pid qty =
        items.map (fun x =>
          if jsEqNum x.product_id pid then { x with qty := specClampQty qty } else x) ∧
      ((∀ x ∈ items, jsGe x.qty (.num 1) = true) →
        ∀ x ∈ setQty items pid qty, jsGe x.qty (.num 1) = true) := by
  intro items pid qty
  have hq := clamp_eq_specClampQty qty
  constructor
  · unfold setQty
    rw [hq]
  · intro hall x hx
    unfold setQty at hx
    rw [hq] at hx
    rcases List.mem_map.mp hx with ⟨y, hy, hxy⟩
    by_cases hm : jsEqNum y.product_id pid = true
    · rw [if_pos hm] at hxy
      rw [← hxy]
      exact specClampQty_ge_one qty
    · rw [if_neg hm] at hxy
      rw [← hxy]
      exact hall y hy

/-- C6 witness: setting the quantity of the only cart line to 0 stores 1,
a quantity at least 1. -/
theorem c6_setQty_clamps_witness :
    jsGe (CartItem.mk (.num 1) (.num 1)).qty (.num 1) = true :=
  (c6_setQty_clamps [⟨.num 1, .num 2⟩] (.num 1) (.num 0)).2 (by decide)
    ⟨.num 1, .num 1⟩ (by decide)

/-- C9: readCart never throws and only returns items with a finite
product id and a finite strictly positive quantity; an absent entry, an
unparsable entry and a non-array parse give the empty list. -/
theorem c9_readCart_safe :
    (∀ s : StoredCart, ∀ x ∈ readCart s,
      isFinite x.product_id = true ∧ isFinite x.qty = true ∧
      jsGt x.qty (.num 0) = true) ∧
    readCart .absent = [] ∧
    readCart .unparsable = [] ∧
    (∀ j : Json, j.isArr = false → readCart (.parsed j) = []) := by
  refine ⟨?_, rfl, rfl, ?_⟩
  · intro s x hx
    cases s with
    | absent => simp [readCart] at hx
    | unparsable => simp [readCart] at hx
    | parsed j =>
        cases j with
        | arr xs =>
            have hcond := (List.mem_filter.mp hx).2
            simp only [Bool.and_eq_true] at hcond
            exact ⟨hcond.1.1, hcond.1.2, hcond.2⟩
        | null => simp [readCart] at hx
        | bool b => simp [readCart] at hx
        | num q => simp [readCart] at hx
        | str s => simp [readCart] at hx
        | obj f => simp [readCart] at hx
  · intro j hj
    cases j with
    | arr xs => exact absurd hj (by simp [Json.isArr])
    | null => rfl
    | bool b => rfl
    | num q => rfl
    | str s => rfl
    | obj f => rfl

/-- C9 witness: a parsed singleton array with numeric fields passes the
filter and its item has a finite strictly positive quantity. -/
theorem c9_readCart_safe_witness :
    isFinite (CartItem.mk (.num 1) (.num 2)).product_id = true ∧
    isFinite (CartItem.mk (.num 1) (.num 2)).qty = true ∧
    jsGt (CartItem.mk (.num 1) (.num 2)).qty (.num 0) = true :=
  c9_readCart_safe.1
    (.parsed (.arr [.obj [("product_id", .num 1), ("qty", .num 2)]]))
    ⟨.num 1, .num 2⟩ (by decide)

/-! ### Claims about error handling and rendering -/

/-- C3 counterexample: the OrderDetails catch handler, on a 401 response,
neither removes the token nor redirects to the login page; it only raises
the fallback toast and clears the order. -/
theorem c3_counterexample_orderdetails_401 :
    orderDetailsLoadCatch ⟨some 401, none⟩ =
      [.toastError "Failed to load order", .setOrderNone] ∧
    Effect.removeToken ∉ orderDetailsLoadCatch ⟨some 401, none⟩ ∧
    Effect.navigate "/login" ∉ orderDetailsLoadCatch ⟨some 401, none⟩ :=
  ⟨rfl, by decide, by decide⟩

/-- C3 amended: the 401-or-403 clear-token-and-redirect branch exists in
the Payment page loadOrder and handlePay handlers and the Payments page
load handler; the OrderDetails load, Cart product fetch and checkout
handlers treat every error, 401 and 403 included, as a plain
detail-or-fallback toast and never touch the token; every non-auth error
surfaces the detail-or-fallback toast in every handler. -/
theorem c3_amended_error_handling :
    ∀ e : ErrResp,
      (isAuthStatus e.status = true →
        loadOrderCatch e = handleAuthError ∧
        handlePayCatch e = handleAuthError ∧
        paymentsLoadCatch e = handleAuthError ∧
        Effect.removeToken ∈ handleAuthError ∧
        Effect.navigate "/login" ∈ handleAuthError) ∧
      (isAuthStatus e.status = false →
        loadOrderCatch e =
          [.toastError (jsOrStr e.detail "Failed to load order"), .setOrderNone] ∧
        handlePayCatch e = [.toastError (jsOrStr e.detail "Payment failed")] ∧
        paymentsLoadCatch e =
          [.toastError (jsOrStr e.detail "Failed to load payments")]) ∧
      orderDetailsLoadCatch e =
        [.toastError (jsOrStr e.detail "Failed to load order"), .setOrderNone] ∧
      cartProductsCatch e =
        [.toastError (jsOrStr e.detail "Failed to load products")] ∧
      checkoutCatch e = [.toastError (jsOrStr e.detail "Checkout failed")] ∧
      Effect.removeToken ∉ orderDetailsLoadCatch e ∧
      Effect.removeToken ∉ cartProductsCatch e ∧
      Effect.removeToken ∉ checkoutCatch e := by
  intro e
  refine ⟨fun h => ?_, fun h => ?_, rfl, rfl, rfl, ?_, ?_, ?_⟩
  · simp [loadOrderCatch, handlePayCatch, paymentsLoadCatch, h, handleAuthError]
  · simp [loadOrderCatch, handlePayCatch, paymentsLoadCatch, h]
  · simp [orderDetailsLoadCatch]
  · simp [cartProductsCatch]
  · simp [checkoutCatch]

/-- C3 amended witness: a concrete 403 error takes the auth branch of the
Payment page loadOrder handler. -/
theorem c3_amended_error_handling_witness :
    loadOrderCatch ⟨some 403, some "Forbidden"⟩ = handleAuthError :=
  ((c3_amended_error_handling ⟨some 403, some "Forbidden"⟩).1 (by decide)).1

/-- C4: the OrderDetails page renders the Go to Payment action exactly
when the order status strictly equals CREATED, and the Payment page
renders the Pay Now action under the same condition; for any other
status neither action is rendered. -/
theorem c4_created_gates_payment_actions :
    ∀ (o : Order) (oid : String),
      (renderOrderDetails false (some o) = .orderCard o.id o.status true ↔
        o.status = "CREATED") ∧
      (renderPayment false (some oid) (some o) = .orderCard o.id o.status true ↔
        o.status = "CREATED") ∧
      (o.status ≠ "CREATED" →
        renderOrderDetails false (some o) = .orderCard o.id o.status false ∧
        renderPayment false (some oid) (some o) = .orderCard o.id o.status false) ∧
      isPayable (some o) = (o.status == "CREATED") ∧
      isPayable none = false := by
  intro o oid
  by_cases h : o.status = "CREATED" <;>
    simp [renderOrderDetails, renderPayment, isPayable, h]

/-- C4 witness: a CREATED order renders the Go to Payment action. -/
theorem c4_created_gates_payment_actions_witness :
    renderOrderDetails false (some ⟨.num 1, "CREATED", .num 5, []⟩) =
      .orderCard (.num 1) "CREATED" true :=
  ((c4_created_gates_payment_actions ⟨.num 1, "CREATED", .num 5, []⟩ "1").1).mpr rfl

/-- C5: checkout on an empty cart stops at the first guard: it raises
only the empty-cart toast, reads no token and issues no order request,
and the page state is unchanged. -/
theorem c5_checkout_empty_cart :
    ∀ (pg : CartPage) (net : Except ErrResp JsNum),
      pg.items = [] →
        checkout pg net = (pg, [.toastError "Cart is empty"]) ∧
        Effect.readToken ∉ (checkout pg net).2 ∧
        ∀ l, Effect.postOrders l ∉ (checkout pg net).2 := by
  intro pg net h
  have hempty : pg.items.isEmpty = true := by rw [h]; rfl
  have hck : checkout pg net = (pg, [.toastError "Cart is empty"]) := by
    unfold checkout
    rw [if_pos hempty]
  refine ⟨hck, ?_, ?_⟩
  · rw [hck]; simp
  · intro l; rw [hck]; simp

/-- C5 witness: the theorem evaluated on a concrete empty-cart page. -/
theorem c5_checkout_empty_cart_witness :
    checkout ⟨[], none, none, fun _ => none⟩ (.error ⟨none, none⟩) =
      (⟨[], none, none, fun _ => none⟩, [.toastError "Cart is empty"]) :=
  (c5_checkout_empty_cart ⟨[], none, none, fun _ => none⟩ (.error ⟨none, none⟩) rfl).1

/-- C8: once checkout reaches the POST to the orders endpoint, a success
removes the cart entry from localStorage and empties the in-memory
items, while a failure only raises the catch toast and leaves the page
state, cart entry included, unchanged. -/
theorem c8_checkout_post_outcome :
    ∀ (pg : CartPage) (t : String) (id : JsNum) (e : ErrResp),
      pg.items ≠ [] → pg.token = some t →
      pg.items.filter (fun x => (pg.productsById x.product_id).isNone) = [] →
        (checkout pg (.ok id)).1.cartStorage = none ∧
        (checkout pg (.ok id)).1.items = [] ∧
        Effect.removeCart ∈ (checkout pg (.ok id)).2 ∧
        (checkout pg (.error e)).1 = pg ∧
        (checkout pg (.error e)).2 =
          [.readToken, .postOrders (pg.items.map fun i => ⟨i.product_id, i.qty⟩)]
            ++ checkoutCatch e := by
  intro pg t id e hne htok hfil
  have hempty : pg.items.isEmpty = false := by
    cases hi : pg.items with
    | nil => exact absurd hi hne
    | cons a l => rfl
  have hfe : (pg.items.filter fun x => (pg.productsById x.product_id).isNone).isEmpty
      = true := by rw [hfil]; rfl
  refine ⟨?_, ?_, ?_, ?_, ?_⟩ <;>
    simp [checkout, hempty, htok, hfe]

/-- C8 witness: a concrete one-line cart whose POST succeeds ends with an
empty item list. -/
theorem c8_checkout_post_outcome_witness :
    (checkout
      ⟨[⟨.num 1, .num 2⟩], some [⟨.num 1, .num 2⟩], some "tok",
        fun _ => some ⟨.num 1, "candy", none, .num 3, none, none⟩⟩
      (.ok (.num 7))).1.items = [] :=
  (c8_checkout_post_outcome
    ⟨[⟨.num 1, .num 2⟩], some [⟨.num 1, .num 2⟩], some "tok",
      fun _ => some ⟨.num 1, "candy", none, .num 3, none, none⟩⟩
    "tok" (.num 7) ⟨none, none⟩ (by simp) rfl rfl).2.1

theorem validateForm_fst_true_iff (address phone : String) :
    (validateForm address phone).1 = true ↔
      jsTrim address ≠ "" ∧ jsTrim phone ≠ "" ∧ isValidPhone phone = true := by
  unfold validateForm
  split_ifs with h1 h2 h3
  · simp only [beq_iff_eq] at h1
    simp [h1]
  · simp only [beq_iff_eq] at h2
    simp [h2]
  · simp only [Bool.not_eq_true'] at h3
    simp [h3]
  · simp only [beq_iff_eq] at h1 h2
    simp only [Bool.not_eq_true', Bool.not_eq_false] at h3
    simp [h1, h2, h3]

theorem postPayment_not_mem_validateForm_snd (address phone : String)
    (oid : String) (p : PayPayload) :
    Effect.postPayment oid p ∉ (validateForm address phone).2 := by
  unfold validateForm
  split_ifs <;> simp

theorem postPayment_not_mem_handlePayCatch (e : ErrResp)
    (oid : String) (p : PayPayload) :
    Effect.postPayment oid p ∉ handlePayCatch e := by
  unfold handlePayCatch
  split_ifs <;> simp [handleAuthError]

/-- C7: whenever handlePay reaches the POST to the payments endpoint, the
payload is exactly the trimmed address and the normalized phone, the
trimmed address is non-empty and the phone passes the 9-to-15 digit
validation, and the request targets the current order id; when any guard
fails (missing order id, missing token, failing form validation) no such
request appears in the trace. -/
theorem c7_handlePay_guards :
    ∀ (orderId token : Option String) (address phone : String)
      (net : Except ErrResp Unit),
      (∀ oid p, Effect.postPayment oid p ∈ handlePay orderId token address phone net →
        p = ⟨jsTrim address, normalizePhone phone⟩ ∧
        jsTrim address ≠ "" ∧ isValidPhone phone = true ∧ orderId = some oid) ∧
      ((orderId = none ∨ token = none ∨ (validateForm address phone).1 = false) →
        ∀ oid p, Effect.postPayment oid p ∉ handlePay orderId token address phone net) := by
  intro orderId token address phone net
  cases orderId with
  | none =>
      exact ⟨fun oid p hp => absurd hp (by simp [handlePay]),
        fun _ oid p hp => absurd hp (by simp [handlePay])⟩
  | some o =>
      cases token with
      | none =>
          exact ⟨fun oid p hp => absurd hp (by simp [handlePay]),
            fun _ oid p hp => absurd hp (by simp [handlePay])⟩
      | some t =>
          by_cases hv : (validateForm address phone).1 = false
          · have hnot : ∀ oid p,
                Effect.postPayment oid p ∉ handlePay (some o) (some t) address phone net := by
              intro oid p hp
              simp only [handlePay, if_pos hv, List.mem_cons] at hp
              rcases hp with h | h
              · exact Effect.noConfusion h
              · exact postPayment_not_mem_validateForm_snd address phone oid p h
            exact ⟨fun oid p hp => absurd hp (hnot oid p), fun _ => hnot⟩
          · have hvt : (validateForm address phone).1 = true := by
              cases hb : (validateForm address phone).1 with
              | false => exact absurd hb hv
              | true => rfl
            obtain ⟨ha, hph, hval⟩ := (validateForm_fst_true_iff address phone).mp hvt
            constructor
            · intro oid p hp
              simp only [handlePay, if_neg hv, List.cons_append, List.nil_append,
                List.mem_cons] at hp
              rcases hp with h | h | h
              · exact Effect.noConfusion h
              · injection h with h1 h2
                exact ⟨h2, ha, hval, by rw [h1]⟩
              · exfalso
                cases net with
                | ok u => simp at h
                | error e => exact postPayment_not_mem_handlePayCatch e oid p h
            · intro hdis oid p hp
              rcases hdis with h | h | h
              · exact Option.noConfusion h
              · exact Option.noConfusion h
              · rw [h] at hvt
                exact Bool.noConfusion hvt

/-- C7 witness: a concrete valid form issues the request with the trimmed
address and the normalized phone. -/
theorem c7_handlePay_guards_witness :
    (⟨"addr", "0901234567"⟩ : PayPayload) =
      ⟨jsTrim "addr", normalizePhone "0901234567"⟩ ∧
    jsTrim "addr" ≠ "" ∧ isValidPhone "0901234567" = true ∧
    (some "1" : Option String) = some "1" :=
  (c7_handlePay_guards (some "1") (some "t") "addr" "0901234567" (.ok ())).1
    "1" ⟨"addr", "0901234567"⟩ (by decide)

end MicroShop
